import Mathlib

/-!
Verification development for the frida-tools process/application lister
(frida_tools/ps.py).  The Python source is shallowly embedded below:
pure helpers become Lean functions, the stdin stream is a list of
characters, exceptions become Except values, and the observable effects
of printing and exiting become explicit event traces.  Machine floats
appear only in the icon-size computation; that arithmetic is modelled
bit-exactly as IEEE binary64 with round-to-nearest, ties to even, over
integer mantissa-exponent pairs.
-/

/-- Errors a Python expression of the embedded fragment can raise. -/
inductive PyErr where
  | valueError
  | indexError
  | zeroDivisionError
  | eofError
deriving DecidableEq, Repr

/-! ### Python primitive helpers -/

/-- Models the Python max builtin on a list of naturals; the source only
applies it to non-empty lists, where foldl with initial value 0 agrees. -/
def pyMax (l : List Nat) : Nat := l.foldl max 0

/-- Models s.ljust-style padding produced by a %-Ns format: pad on the
right with spaces to width w, never truncating. -/
def pyLJust (w : Nat) (s : String) : String :=
  ⟨s.data ++ List.replicate (w - s.data.length) ' '⟩

/-- Models the %Ns / %Nd formats: pad on the left with spaces to width w. -/
def pyRJust (w : Nat) (s : String) : String :=
  ⟨List.replicate (w - s.data.length) ' ' ++ s.data⟩

/-- Models the Python expression n * c for a character c: n copies of c. -/
def pyRepeat (n : Nat) (c : Char) : String := ⟨List.replicate n c⟩

/-- Split off everything before the first occurrence of sep, returning
the part before and the part after, or none when sep does not occur. -/
def splitFirst (sep : Char) : List Char → Option (List Char × List Char)
  | [] => none
  | c :: cs =>
    if c = sep then some ([], cs)
    else (splitFirst sep cs).map (fun p => (c :: p.1, p.2))

/-- Models str.split(sep, maxsplit) on a character list: at most fuel
splits, each at the leftmost remaining occurrence of sep. -/
def pySplitListN (sep : Char) : Nat → List Char → List (List Char)
  | 0, cs => [cs]
  | n + 1, cs =>
    match splitFirst sep cs with
    | none => [cs]
    | some (pre, post) => pre :: pySplitListN sep n post

/-- Models str.split(sep, maxsplit) on strings. -/
def pySplit (sep : Char) (maxsplit : Nat) (s : String) : List String :=
  (pySplitListN sep maxsplit s.data).map (fun l => (⟨l⟩ : String))

/-- Models str.split(sep) without a maxsplit: the length of the string
bounds the number of possible splits. -/
def pySplitAll (sep : Char) (s : String) : List String :=
  pySplit sep s.data.length s

/-- Models str.startswith(pre). -/
def pyStartsWith (s pre : String) : Bool := pre.data.isPrefixOf s.data

/-- Executable codepoint-lexicographic comparison of character lists,
the order Python uses when comparing strings. -/
def charListLt : List Char → List Char → Bool
  | [], [] => false
  | [], _ :: _ => true
  | _ :: _, [] => false
  | a :: as, b :: bs =>
    if a < b then true
    else if b < a then false
    else charListLt as bs

/-- Models the Python string comparison s < t. -/
def pyStrLt (s t : String) : Bool := charListLt s.data t.data

/-- Whitespace characters stripped by the Python int constructor. -/
def isPyWs (c : Char) : Bool :=
  c = ' ' || c = '\t' || c = '\n' || c = '\r' || c = '\x0b' || c = '\x0c'

/-- Strip leading and trailing whitespace from a character list. -/
def pyStrip (cs : List Char) : List Char :=
  ((cs.dropWhile isPyWs).reverse.dropWhile isPyWs).reverse

/-- True when the list is a non-empty run of ASCII decimal digits. -/
def digitsOnly (cs : List Char) : Bool := !cs.isEmpty && cs.all Char.isDigit

/-- Value of a run of ASCII decimal digits. -/
def digitsVal (cs : List Char) : Nat :=
  cs.foldl (fun a c => a * 10 + (c.toNat - 48)) 0

/-- Core of the Python int constructor on a stripped character list:
an optional sign followed by ASCII decimal digits.  Unicode digits and
underscore separators accepted by CPython are not modelled. -/
def pyIntCore (cs : List Char) : Option Int :=
  match cs with
  | '+' :: rest => if digitsOnly rest then some (digitsVal rest) else none
  | '-' :: rest => if digitsOnly rest then some (-(digitsVal rest : Int)) else none
  | _ => if digitsOnly cs then some (digitsVal cs) else none

/-- Models int(s) for a string s: strip whitespace, then parse an
optionally signed decimal numeral; none models a raised ValueError. -/
def pyInt (s : String) : Option Int := pyIntCore (pyStrip s.data)

/-- Stable insertion used by pySorted: x goes in front of the first
element it does not compare strictly after. -/
def pySortedInsert (cmp : α → α → Int) (x : α) : List α → List α
  | [] => [x]
  | y :: ys => if cmp x y ≤ 0 then x :: y :: ys else y :: pySortedInsert cmp x ys

/-- Models sorted(xs, key=functools.cmp_to_key(cmp)): a stable sort by
the three-way comparator cmp.  For a comparator that induces a total
preorder, every stable sort, in particular the one used by CPython,
produces this list. -/
def pySorted (cmp : α → α → Int) : List α → List α
  | [] => []
  | x :: xs => pySortedInsert cmp x (pySorted cmp xs)

/-- Alphabet of standard base64. -/
def b64Table : List Char :=
  "ABCDEFGHIJKLMNOPQRSTUVWXYZabcdefghijklmnopqrstuvwxyz0123456789+/".data

/-- Character of a 6-bit group. -/
def b64Char (n : Nat) : Char := b64Table.getD n 'A'

/-- Standard base64 of a byte list, with = padding. -/
def b64encodeAux : List Nat → List Char
  | [] => []
  | [a] => [b64Char (a / 4), b64Char (a % 4 * 16), '=', '=']
  | [a, b] => [b64Char (a / 4), b64Char (a % 4 * 16 + b / 16), b64Char (b % 16 * 4), '=']
  | a :: b :: c :: rest =>
    b64Char (a / 4) :: b64Char (a % 4 * 16 + b / 16) ::
      b64Char (b % 16 * 4 + c / 64) :: b64Char (c % 64) :: b64encodeAux rest

/-- Models base64.b64encode(data).decode("ascii"). -/
def b64encode (bytes : List Nat) : String := ⟨b64encodeAux bytes⟩

/-! ### Data model

Records as handed over by the enumeration backend.  The parameters
mapping of a record is only ever consulted at its icons key, so it is
modelled by that entry alone: none means the key is absent, some l
means the key is present and holds the descriptor sequence l. -/

/-- An icon descriptor: a format tag and raw image bytes. -/
structure IconDescriptor where
  format : String
  image : List Nat
deriving DecidableEq, Repr

/-- A process record. -/
structure Process where
  pid : Nat
  name : String
  icons : Option (List IconDescriptor)
deriving DecidableEq, Repr

/-- An application record; pid 0 is the not-running sentinel. -/
structure Application where
  pid : Nat
  name : String
  identifier : String
  icons : Option (List IconDescriptor)
deriving DecidableEq, Repr

/-! ### Comparators and icon width (ps.py lines 250 to 284) -/

/-- Embeds compare_applications: running records (pid not 0) first,
then ascending name; name comparison is codepoint lexicographic. -/
def compare_applications (a b : Application) : Int :=
  let aIsRunning : Bool := a.pid != 0
  let bIsRunning : Bool := b.pid != 0
  if aIsRunning = bIsRunning then
    if pyStrLt b.name a.name then 1
    else if pyStrLt a.name b.name then -1
    else 0
  else if aIsRunning then -1
  else 1

/-- Embeds compare_processes: records whose parameters contain an icons
key first, then ascending name. -/
def compare_processes (a b : Process) : Int :=
  let aHasIcon : Bool := a.icons.isSome
  let bHasIcon : Bool := b.icons.isSome
  if aHasIcon = bHasIcon then
    if pyStrLt b.name a.name then 1
    else if pyStrLt a.name b.name then -1
    else 0
  else if aHasIcon then -1
  else 1

/-- Embeds compute_icon_width, iterating over parameters.get("icons", []):
4 as soon as a descriptor of format png is seen, else 0. -/
def compute_icon_width_loop : List IconDescriptor → Nat
  | [] => 0
  | icon :: rest => if icon.format = "png" then 4 else compute_icon_width_loop rest

/-- Embeds compute_icon_width on a record's icons entry. -/
def compute_icon_width (icons : Option (List IconDescriptor)) : Nat :=
  compute_icon_width_loop (icons.getD [])

/-! ### Output events

Modelled from the spec: the ConsoleApplication helpers used by ps.py
(its _print, _log, _update_status and _exit) live outside the provided
source; the spec describes them as writing lines or status messages to
the output stream and setting the process exit status.  A listing is
therefore modelled as the list of output events it performs together
with its exit code; a none exit code records an exception escaping the
listing, in which case _exit was never reached. -/

/-- JSON values, with object fields in declaration order. -/
inductive Json where
  | null
  | num (n : Int)
  | str (s : String)
  | arr (xs : List Json)
  | obj (fields : List (String × Json))

/-- Modelled from the spec: one observable output action of a listing.
line is a _print of a text line, jsonOut is the _print of the
json.dumps rendering of a structured value (the value itself is
recorded, holding the array order and per-object key order), logError
is a _log at level error, and status is an _update_status message. -/
inductive OutEvent where
  | line (s : String)
  | jsonOut (j : Json)
  | logError (s : String)
  | status (s : String)

/-! ### Rendering and listings (ps.py lines 74 to 196) -/

/-- Embeds _render_icon: the inline-image escape sequence around the
base64 of the raw image bytes, sized icon_size by icon_size. -/
def render_icon (iconSize : Int) (icon : IconDescriptor) : String :=
  "\x1b]1337;File=inline=1;width=" ++ toString iconSize ++ "px;height=" ++
    toString iconSize ++ "px;:" ++ b64encode icon.image ++ "\x07"

/-- Embeds the name-cell computation duplicated in the row loops of
_list_processes (lines 102 to 110) and _list_applications (lines 165
to 173).  With a non-zero icon width, a record whose icons entry is
present has its first descriptor rendered; indexing an empty entry
raises IndexError; an absent entry yields the three-space placeholder. -/
def rowNameCell (iconSize : Int) (iconWidth nameWidth : Nat)
    (icons : Option (List IconDescriptor)) (name : String) : Except PyErr String :=
  if iconWidth ≠ 0 then
    match icons with
    | some [] => .error .indexError
    | some (d :: _) => .ok (render_icon iconSize d ++ " " ++ pyLJust (nameWidth - iconWidth) name)
    | none => .ok ("   " ++ " " ++ pyLJust (nameWidth - iconWidth) name)
  else .ok (pyLJust (nameWidth - iconWidth) name)

/-- Embeds the scope choice of _list_processes (lines 75 to 78). -/
def processesScope (excludeIcons : Bool) (outputFormat terminalType : String) : String :=
  if excludeIcons = false ∧ outputFormat = "text" ∧ terminalType = "iterm2" then "full"
  else "minimal"

/-- Embeds the scope choice of _list_applications (lines 124 to 127);
unlike the process listing it does not consult the exclude-icons flag. -/
def applicationsScope (outputFormat terminalType : String) : String :=
  if outputFormat = "text" ∧ terminalType = "iterm2" then "full" else "minimal"

/-- Embeds the row loop of _list_processes: each row prints the
right-justified pid and the name cell; an exception from the name cell
aborts the loop after the rows already printed. -/
def emitProcessRows (iconSize : Int) (pidW iconW nameW : Nat) :
    List Process → List OutEvent × Option PyErr
  | [] => ([], none)
  | p :: rest =>
    match rowNameCell iconSize iconW nameW p.icons p.name with
    | .error e => ([], some e)
    | .ok name =>
      let line := pyRJust pidW (toString p.pid) ++ "  " ++ name
      let r := emitProcessRows iconSize pidW iconW nameW rest
      (.line line :: r.1, r.2)

/-- Embeds the row loop of _list_applications: pid prints as the dash
sentinel when 0, and the identifier column is left-justified. -/
def emitApplicationRows (iconSize : Int) (pidW iconW nameW idW : Nat) :
    List Application → List OutEvent × Option PyErr
  | [] => ([], none)
  | app :: rest =>
    match rowNameCell iconSize iconW nameW app.icons app.name with
    | .error e => ([], some e)
    | .ok name =>
      let pidStr := if app.pid = 0 then "-" else toString app.pid
      let line := pyRJust pidW pidStr ++ "  " ++ name ++ "  " ++ pyLJust idW app.identifier
      let r := emitApplicationRows iconSize pidW iconW nameW idW rest
      (.line line :: r.1, r.2)

/-- Embeds _list_processes.  The enumeration backend is a parameter
from scope strings to either an error message (a raised exception,
whose rendering str(e) is the message) or the record list. -/
def listProcesses (excludeIcons : Bool) (outputFormat terminalType : String) (iconSize : Int)
    (enumerateProcesses : String → Except String (List Process)) :
    List OutEvent × Option Nat :=
  let scope := processesScope excludeIcons outputFormat terminalType
  match enumerateProcesses scope with
  | .error e => ([.status ("Failed to enumerate processes: " ++ e)], some 1)
  | .ok processes =>
    if outputFormat = "text" then
      if 0 < processes.length then
        let pidColumnWidth := pyMax (processes.map (fun p => (toString p.pid).data.length))
        let iconWidth := pyMax (processes.map (fun p => compute_icon_width p.icons))
        let nameColumnWidth := iconWidth + pyMax (processes.map (fun p => p.name.data.length))
        let header := pyRJust pidColumnWidth "PID" ++ "  " ++ "Name"
        let separator := pyRepeat pidColumnWidth '-' ++ "  " ++ pyRepeat nameColumnWidth '-'
        let rows := emitProcessRows iconSize pidColumnWidth iconWidth nameColumnWidth
          (pySorted compare_processes processes)
        (.line header :: .line separator :: rows.1,
         match rows.2 with
         | none => some 0
         | some _ => none)
      else ([.logError "No running processes."], some 0)
    else if outputFormat = "json" then
      let result := (pySorted compare_processes processes).map (fun p =>
        Json.obj [("pid", Json.num p.pid), ("name", Json.str p.name)])
      ([.jsonOut (Json.arr result)], some 0)
    else ([], some 0)

/-- Embeds _list_applications.  The source reads the exclude-icons
option only inside _list_processes; the flag is part of the
application object state and is threaded here unused, exactly as
_list_applications never consults self dot exclude-icons. -/
def listApplications (includeAllApplications excludeIcons : Bool)
    (outputFormat terminalType : String) (iconSize : Int)
    (enumerateApplications : String → Except String (List Application)) :
    List OutEvent × Option Nat :=
  let scope := applicationsScope outputFormat terminalType
  match enumerateApplications scope with
  | .error e => ([.status ("Failed to enumerate applications: " ++ e)], some 1)
  | .ok apps =>
    let applications := if includeAllApplications then apps
      else apps.filter (fun app => app.pid != 0)
    if outputFormat = "text" then
      if 0 < applications.length then
        let pidColumnWidth := pyMax (applications.map (fun a => (toString a.pid).data.length))
        let iconWidth := pyMax (applications.map (fun a => compute_icon_width a.icons))
        let nameColumnWidth := iconWidth + pyMax (applications.map (fun a => a.name.data.length))
        let identifierColumnWidth := pyMax (applications.map (fun a => a.identifier.data.length))
        let header := pyRJust pidColumnWidth "PID" ++ "  " ++ pyLJust nameColumnWidth "Name" ++
          "  " ++ pyLJust identifierColumnWidth "Identifier"
        let separator := pyRepeat pidColumnWidth '-' ++ "  " ++ pyRepeat nameColumnWidth '-' ++
          "  " ++ pyRepeat identifierColumnWidth '-'
        let rows := emitApplicationRows iconSize pidColumnWidth iconWidth nameColumnWidth
          identifierColumnWidth (pySorted compare_applications applications)
        (.line header :: .line separator :: rows.1,
         match rows.2 with
         | none => some 0
         | some _ => none)
      else if includeAllApplications then ([.logError "No installed applications."], some 0)
      else ([.logError "No running applications."], some 0)
    else if outputFormat = "json" then
      let result := if 0 < applications.length then
          (pySorted compare_applications applications).map (fun app =>
            Json.obj [("pid", if app.pid = 0 then Json.null else Json.num app.pid),
                      ("name", Json.str app.name),
                      ("identifier", Json.str app.identifier)])
        else []
      ([.jsonOut (Json.arr result)], some 0)
    else ([], some 0)

/-! ### Terminal capability negotiation (ps.py lines 198 to 248)

The terminal is modelled explicitly: stdin is a list of characters,
stdout writes are collected in order, and the termios attribute word is
an abstract natural.  tty.setraw and the ICANON/ECHO masking applied to
the freshly read attributes are uninterpreted functions rawOf and
maskOf.  The try/finally of _detect_terminal is translated by emitting
the restoring tcsetattr on every path that leaves the body, normal or
exceptional.  A read at end of input is modelled as a failing read
(eofError): on a real terminal the loop in _read_terminal_response
would block there, and the spec treats it as a fatal negotiation
failure. -/

/-- Embeds the accumulation loop of _read_terminal_response: consume
characters until the terminator, returning the characters before it. -/
def readRespLoop (term : Char) : List Char → Except PyErr (String × List Char)
  | [] => .error .eofError
  | c :: cs =>
    if c = term then .ok ("", cs)
    else
      match readRespLoop term cs with
      | .error e => .error e
      | .ok (s, rest) => .ok (⟨c :: s.data⟩, rest)

/-- Embeds _read_terminal_response: discard the two introducer
characters, then accumulate until the terminator. -/
def readResp (term : Char) : List Char → Except PyErr (String × List Char)
  | _ :: _ :: rest => readRespLoop term rest
  | _ => .error .eofError

/-- Embeds int(response.split(";")[1]): the second semicolon-delimited
field parsed as an integer; a missing field raises IndexError and an
unparsable field raises ValueError. -/
def parseSecondField (s : String) : Except PyErr Int :=
  match (pySplitAll ';' s).get? 1 with
  | none => .error .indexError
  | some f =>
    match pyInt f with
    | none => .error .valueError
    | some v => .ok v

/-- The two capability probes written before any response is read. -/
def probeWrites : List String := ["\x1b[1337n", "\x1b[5n"]

/-! ### Binary64 model of the icon-size arithmetic

The source computes math.ceil((height_in_pixels / height_in_cells)
times the literal 1.77) in IEEE binary64.  The model below represents
a positive finite double bit-exactly as an integer mantissa M in
[2 to the 52, 2 to the 53) together with an exponent E, denoting
M times 2 to the (E minus 52).  CPython rounds true division of two
integers correctly to nearest (ties to even), the decimal literal 1.77
denotes the double nearest 177/100, double multiplication is correctly
rounded per IEEE 754, and math.ceil of a double is exact.  Overflow,
gradual underflow, NaN and infinities are not modelled: they require a
height magnitude beyond roughly 10 to the 300, or a quotient below
2 to the minus 1022, far outside any terminal geometry. -/

/-- Floor of the base-2 logarithm of a positive natural, computed by
structural recursion on a fuel argument bounded by the number itself. -/
def natLog2Go : Nat → Nat → Nat
  | 0, _ => 0
  | fuel + 1, n => if n ≤ 1 then 0 else natLog2Go fuel (n / 2) + 1

/-- Floor of the base-2 logarithm of a positive natural. -/
def natLog2 (n : Nat) : Nat := natLog2Go n n

/-- The unique e with 2 to the e at most a/b, a/b below 2 to the
(e+1), for positive naturals a and b: the guess from the two integer
logarithms is off by at most one and is fixed by a single comparison
of a/b against 2 to the guess. -/
def divExp (a b : Nat) : Int :=
  let g : Int := (natLog2 a : Int) - (natLog2 b : Int)
  if b * 2 ^ (max g 0).toNat ≤ a * 2 ^ (max (-g) 0).toNat then g else g - 1

/-- Round the fraction N/D (D positive) to the nearest integer, ties
to even. -/
def roundNatDiv (N D : Nat) : Nat :=
  let q := N / D
  let r := N % D
  if 2 * r < D then q
  else if D < 2 * r then q + 1
  else if q % 2 = 0 then q else q + 1

/-- Renormalize a mantissa-exponent pair when rounding carried the
mantissa up to 2 to the 53. -/
def normMant (M : Nat) (E : Int) : Nat × Int :=
  if 2 ^ 53 ≤ M then (M / 2, E + 1) else (M, E)

/-- Correctly rounded binary64 quotient of two positive integers, as a
mantissa-exponent pair: the exact quotient lies in [2^e, 2^(e+1)), so
its mantissa is the nearest-even rounding of (a/b) scaled by
2^(52-e). -/
def floatDivPos (a b : Nat) : Nat × Int :=
  let e := divExp a b
  let shift : Int := 52 - e
  let N := a * 2 ^ (max shift 0).toNat
  let D := b * 2 ^ (max (-shift) 0).toNat
  normMant (roundNatDiv N D) e

/-- Correctly rounded binary64 product of two positive doubles: the
exact mantissa product lies in [2^104, 2^106) and is rounded back to
53 bits at the appropriate exponent. -/
def floatMulPos (m1 m2 : Nat × Int) : Nat × Int :=
  let P := m1.1 * m2.1
  let E := m1.2 + m2.2
  if 2 ^ 105 ≤ P then normMant (roundNatDiv P (2 ^ 53)) (E + 1)
  else normMant (roundNatDiv P (2 ^ 52)) E

/-- The binary64 value denoted by the source literal 1.77: the double
nearest 177/100, with mantissa 7971371340445778 at exponent 0. -/
def float177 : Nat × Int := floatDivPos 177 100

/-- Floor of a positive double given as a mantissa-exponent pair. -/
def floorPosFloat (p : Nat × Int) : Int :=
  if 52 ≤ p.2 then ((p.1 * 2 ^ (p.2 - 52).toNat : Nat) : Int)
  else ((p.1 / 2 ^ ((52 : Int) - p.2).toNat : Nat) : Int)

/-- Ceiling of a positive double given as a mantissa-exponent pair. -/
def ceilPosFloat (p : Nat × Int) : Int :=
  if 52 ≤ p.2 then ((p.1 * 2 ^ (p.2 - 52).toNat : Nat) : Int)
  else (((p.1 + (2 ^ ((52 : Int) - p.2).toNat - 1)) / 2 ^ ((52 : Int) - p.2).toNat : Nat) : Int)

/-- Embeds icon_size = math.ceil((height_in_pixels / height_in_cells)
* 1.77) of source line 231 under binary64 semantics: the correctly
rounded double quotient of the two integers, multiplied (correctly
rounded) by the double nearest 177/100, then the exact ceiling of the
resulting double; a zero numerator gives the zero double, and a
negative quotient is handled by sign symmetry of the rounding with
ceil(-x) = -floor(x). -/
def pyIconSize (hp hc : Int) : Int :=
  if hp = 0 then 0
  else
    let q := floatDivPos hp.natAbs hc.natAbs
    let p := floatMulPos q float177
    if (decide (hp < 0)) = (decide (hc < 0)) then ceilPosFloat p
    else -(floorPosFloat p)

/-- Embeds the geometry phase of _detect_terminal (lines 223 to 233):
write the pixel-size probe, read and parse the height in pixels, write
the cell-size probe, read and parse the height in cells, and return
iterm2 with the icon size computed in binary64 by pyIconSize. -/
def geometryPhase (w0 : List String) (rest2 : List Char) :
    Except PyErr (String × Int) × List String :=
  let w1 := w0 ++ ["\x1b[14t"]
  match readResp 't' rest2 with
  | .error e => (.error e, w1)
  | .ok (g1, rest3) =>
    match parseSecondField g1 with
    | .error e => (.error e, w1)
    | .ok heightInPixels =>
      let w2 := w1 ++ ["\x1b[18t"]
      match readResp 't' rest3 with
      | .error e => (.error e, w2)
      | .ok (g2, _) =>
        match parseSecondField g2 with
        | .error e => (.error e, w2)
        | .ok heightInCells =>
          if heightInCells = 0 then (.error .zeroDivisionError, w2)
          else (.ok ("iterm2", pyIconSize heightInPixels heightInCells), w2)

/-- Embeds response.split(" ", 1)[1].split(".", 2) of source line 221:
the text after the first space, split at dots at most twice. -/
def versionTokens (response : String) : List String :=
  pySplit '.' 2 ((pySplit ' ' 1 response).getD 1 "")

/-- The token holding the major version: version_tokens[0]. -/
def majorToken (response : String) : String := (versionTokens response).getD 0 ""

/-- Embeds the version check of _detect_terminal (lines 220 to 233):
inside the branch where the first response starts with the ITERM2
prefix, split the rest of the response at dots (at most twice); when at
least two tokens exist the first must parse as an integer (else
ValueError), and a major version of at least 3 enters the geometry
phase; every other outcome falls through to simple. -/
def versionPhase (response : String) (w0 : List String) (rest2 : List Char) :
    Except PyErr (String × Int) × List String :=
  if pyStartsWith response "ITERM2 " then
    if 2 ≤ (versionTokens response).length then
      match pyInt (majorToken response) with
      | none => (.error .valueError, w0)
      | some major =>
        if 3 ≤ major then geometryPhase w0 rest2
        else (.ok ("simple", 0), w0)
    else (.ok ("simple", 0), w0)
  else (.ok ("simple", 0), w0)

/-- Embeds the probing body of _detect_terminal (lines 212 to 235),
run inside the try block: write both capability probes, read the first
response, return simple at once when it is 0 or 3, otherwise read and
discard a second response and run the version check. -/
def detectBody (input : List Char) : Except PyErr (String × Int) × List String :=
  match readResp 'n' input with
  | .error e => (.error e, probeWrites)
  | .ok (response, rest1) =>
    if response = "0" ∨ response = "3" then (.ok ("simple", 0), probeWrites)
    else
      match readResp 'n' rest1 with
      | .error e => (.error e, probeWrites)
      | .ok (_, rest2) => versionPhase response probeWrites rest2

/-- Result of the modelled _detect_terminal: the returned pair or the
escaping exception, the stdout writes, the tcsetattr calls in order,
and the final terminal attributes. -/
structure DetectResult where
  result : Except PyErr (String × Int)
  writes : List String
  setattrs : List Nat
  finalAttrs : Nat
deriving Repr

/-- Embeds _detect_terminal.  Without an interactive terminal, with a
plain terminal requested, or off Darwin, it returns simple with icon
size 0 before touching the terminal.  Otherwise the attributes are
saved, the terminal is put into raw mode (tty.setraw, then the
ICANON/ECHO masking re-set), the probing body runs, and the finally
block restores the saved attributes on every exit path. -/
def detectTerminal (haveTerminal plainTerminal isDarwin : Bool) (oldAttributes : Nat)
    (rawOf maskOf : Nat → Nat) (input : List Char) : DetectResult :=
  if !haveTerminal || plainTerminal || !isDarwin then
    { result := .ok ("simple", 0), writes := [], setattrs := [], finalAttrs := oldAttributes }
  else
    let rawAttributes := rawOf oldAttributes
    let newAttributes := maskOf rawAttributes
    let body := detectBody input
    { result := body.1
      writes := body.2
      setattrs := [rawAttributes, newAttributes, oldAttributes]
      finalAttrs := oldAttributes }

/-- Encoding of one terminal response on the wire: the two-character
introducer discarded by _read_terminal_response, the payload, and the
terminator. -/
def encResp (term : Char) (r : String) : List Char :=
  '\x1b' :: '[' :: (r.data ++ [term])

/-! ### Spec-side definitions used to state the claims -/

/-- Common shape of the two three-way comparators: a boolean group key
(true sorts first), then codepoint-ascending name within a group. -/
def groupNameCmp (x y : Bool) (s t : String) : Int :=
  if x = y then
    if pyStrLt t s then 1
    else if pyStrLt s t then -1
    else 0
  else if x then -1
  else 1

/-- The amended acceptance condition of the version check: the first
response starts with the ITERM2 prefix, the version string after the
prefix splits into at least two dot-separated tokens, and the first
token parses as an integer of at least 3. -/
def iterm2Accepted (response : String) : Bool :=
  pyStartsWith response "ITERM2 " &&
    (decide (2 ≤ (versionTokens response).length) &&
      match pyInt (majorToken response) with
      | some major => decide (3 ≤ major)
      | none => false)

/-- The condition under which the version check raises instead of
falling through: ITERM2 prefix, at least two dot-separated tokens, but
a major token that is not a valid integer. -/
def iterm2ParseError (response : String) : Bool :=
  pyStartsWith response "ITERM2 " &&
    (decide (2 ≤ (versionTokens response).length) &&
      (pyInt (majorToken response)).isNone)

/-- Input stream used to probe the negotiation with an arbitrary first
response: the first response, a second discarded response, and two
well-formed geometry responses reporting 340 pixels and 20 cells. -/
def c2Stream (r1 : String) : List Char :=
  encResp 'n' r1 ++ (encResp 'n' "0" ++ (encResp 't' "4;340;520" ++ encResp 't' "4;20;80"))

/-! ## Theorems -/

/-- The executable character-list comparison decides the lexicographic
order on lists of characters. -/
theorem charListLt_iff : ∀ as bs : List Char, charListLt as bs = true ↔ as < bs
  | [], [] => iff_of_false (by simp [charListLt]) (fun h => nomatch h)
  | _ :: _, [] => iff_of_false (by simp [charListLt]) (fun h => nomatch h)
  | [], b :: bs => iff_of_true rfl List.Lex.nil
  | a :: as, b :: bs => by
    by_cases hab : a < b
    · exact iff_of_true (by simp [charListLt, hab]) (List.Lex.rel hab)
    · by_cases hba : b < a
      · refine iff_of_false (by simp [charListLt, hab, hba]) (fun h => ?_)
        cases h with
        | cons h' => exact lt_irrefl a hba
        | rel h' => exact hab h'
      · have heq : a = b := le_antisymm (not_lt.mp hba) (not_lt.mp hab)
        subst heq
        have hstep : charListLt (a :: as) (a :: bs) = charListLt as bs := by
          simp [charListLt, lt_irrefl]
        rw [hstep, charListLt_iff as bs]
        constructor
        · exact List.Lex.cons
        · intro h
          cases h with
          | cons h' => exact h'
          | rel h' => exact absurd h' (lt_irrefl a)

/-- The executable string comparison decides the order on strings. -/
theorem pyStrLt_iff (s t : String) : pyStrLt s t = true ↔ s < t := by
  rw [String.lt_iff_toList_lt]
  exact charListLt_iff s.data t.data

/-- Both comparators are instances of the boolean-group-then-name shape. -/
theorem compare_processes_eq_groupNameCmp (a b : Process) :
    compare_processes a b = groupNameCmp a.icons.isSome b.icons.isSome a.name b.name := rfl

/-- The application comparator with the running flag as group key. -/
theorem compare_applications_eq_groupNameCmp (a b : Application) :
    compare_applications a b = groupNameCmp (a.pid != 0) (b.pid != 0) a.name b.name := rfl

/-- The shape comparator returns 0 exactly on equal keys. -/
theorem groupNameCmp_eq_zero (x y : Bool) (s t : String) :
    groupNameCmp x y s t = 0 ↔ x = y ∧ s = t := by
  rcases lt_trichotomy s t with h | h | h
  · cases x <;> cases y <;> simp [groupNameCmp, pyStrLt_iff, h, lt_asymm h, ne_of_lt h]
  · subst h; cases x <;> cases y <;> simp [groupNameCmp, pyStrLt_iff, lt_irrefl]
  · cases x <;> cases y <;> simp [groupNameCmp, pyStrLt_iff, h, lt_asymm h, (ne_of_lt h).symm]

/-- The shape comparator returns -1 exactly on a strictly smaller key. -/
theorem groupNameCmp_eq_neg_one (x y : Bool) (s t : String) :
    groupNameCmp x y s t = -1 ↔ (x = true ∧ y = false) ∨ (x = y ∧ s < t) := by
  rcases lt_trichotomy s t with h | h | h
  · cases x <;> cases y <;> simp [groupNameCmp, pyStrLt_iff, h, lt_asymm h]
  · subst h; cases x <;> cases y <;> simp [groupNameCmp, pyStrLt_iff, lt_irrefl]
  · cases x <;> cases y <;> simp [groupNameCmp, pyStrLt_iff, h, lt_asymm h]

/-- The shape comparator returns 1 exactly on a strictly larger key. -/
theorem groupNameCmp_eq_one (x y : Bool) (s t : String) :
    groupNameCmp x y s t = 1 ↔ (x = false ∧ y = true) ∨ (x = y ∧ t < s) := by
  rcases lt_trichotomy s t with h | h | h
  · cases x <;> cases y <;> simp [groupNameCmp, pyStrLt_iff, h, lt_asymm h]
  · subst h; cases x <;> cases y <;> simp [groupNameCmp, pyStrLt_iff, lt_irrefl]
  · cases x <;> cases y <;> simp [groupNameCmp, pyStrLt_iff, h, lt_asymm h]

/-- The shape comparator only ever returns -1, 0 or 1. -/
theorem groupNameCmp_trichot (x y : Bool) (s t : String) :
    groupNameCmp x y s t = -1 ∨ groupNameCmp x y s t = 0 ∨ groupNameCmp x y s t = 1 := by
  unfold groupNameCmp
  split_ifs <;> simp

/-- Strict comparison by the shape comparator is transitive. -/
theorem groupNameCmp_trans (x y z : Bool) (s t u : String)
    (h1 : groupNameCmp x y s t = -1) (h2 : groupNameCmp y z t u = -1) :
    groupNameCmp x z s u = -1 := by
  rw [groupNameCmp_eq_neg_one] at h1 h2 ⊢
  rcases h1 with ⟨hx, hy⟩ | ⟨hxy, hst⟩ <;> rcases h2 with ⟨hy2, hz⟩ | ⟨hyz, htu⟩
  · simp [hy] at hy2
  · exact Or.inl ⟨hx, by rw [← hyz]; exact hy⟩
  · exact Or.inl ⟨hxy.trans hy2, hz⟩
  · exact Or.inr ⟨hxy.trans hyz, hst.trans htu⟩

/-- Claim C3 (amended): the process comparator is a total order keyed
on presence of the icons parameter entry first (records carrying the
entry strictly before records without it), then codepoint-ascending
name; it returns 0 exactly when entry-presence and name both coincide,
always returns one of -1, 0, 1, mirrors its arguments, and its strict
part is transitive. -/
theorem c3_compare_processes_total_order (a b c : Process) :
    (compare_processes a b = 0 ↔ a.icons.isSome = b.icons.isSome ∧ a.name = b.name) ∧
    (compare_processes a b = -1 ↔
      (a.icons.isSome = true ∧ b.icons.isSome = false) ∨
        (a.icons.isSome = b.icons.isSome ∧ a.name < b.name)) ∧
    (compare_processes a b = 1 ↔ compare_processes b a = -1) ∧
    (compare_processes a b = -1 ∨ compare_processes a b = 0 ∨ compare_processes a b = 1) ∧
    (compare_processes a b = -1 → compare_processes b c = -1 → compare_processes a c = -1) := by
  refine ⟨?_, ?_, ?_, ?_, ?_⟩
  · rw [compare_processes_eq_groupNameCmp]
    exact groupNameCmp_eq_zero _ _ _ _
  · rw [compare_processes_eq_groupNameCmp]
    exact groupNameCmp_eq_neg_one _ _ _ _
  · rw [compare_processes_eq_groupNameCmp a b, compare_processes_eq_groupNameCmp b a,
      groupNameCmp_eq_one, groupNameCmp_eq_neg_one]
    constructor
    · rintro (⟨h1, h2⟩ | ⟨h1, h2⟩)
      · exact Or.inl ⟨h2, h1⟩
      · exact Or.inr ⟨h1.symm, h2⟩
    · rintro (⟨h1, h2⟩ | ⟨h1, h2⟩)
      · exact Or.inl ⟨h2, h1⟩
      · exact Or.inr ⟨h1.symm, h2⟩
  · rw [compare_processes_eq_groupNameCmp]
    exact groupNameCmp_trichot _ _ _ _
  · rw [compare_processes_eq_groupNameCmp a b, compare_processes_eq_groupNameCmp b c,
      compare_processes_eq_groupNameCmp a c]
    exact groupNameCmp_trans _ _ _ _ _ _

/-- Witness for C3: the strict-transitivity conjunct at three concrete
records. -/
theorem c3_total_order_witness :
    compare_processes ⟨1, "A", none⟩ ⟨3, "C", none⟩ = -1 :=
  (c3_compare_processes_total_order ⟨1, "A", none⟩ ⟨2, "B", none⟩ ⟨3, "C", none⟩).2.2.2.2
    (by decide) (by decide)

/-- Counterexample to C3 as stated: a record whose icons entry is
present but empty carries no icon descriptor, yet it sorts strictly
before a descriptor-free record with a smaller name, where the claim
as written demands name order within the no-descriptor group. -/
theorem c3_empty_icons_counterexample :
    compare_processes ⟨1, "B", some []⟩ ⟨2, "A", none⟩ = -1 ∧
    ((⟨1, "B", some []⟩ : Process).icons.getD []).length = 0 ∧
    ((⟨2, "A", none⟩ : Process).icons.getD []).length = 0 ∧
    ("A" : String) < "B" := by
  refine ⟨by decide, rfl, rfl, (pyStrLt_iff "A" "B").mp (by decide)⟩

/-- Claim C4: the application comparator orders every record with a
non-zero pid strictly before every record with pid 0 regardless of
names, and orders records in the same running-state group by ascending
name. -/
theorem c4_compare_applications_running_first (a b : Application) :
    (a.pid ≠ 0 → b.pid = 0 → compare_applications a b = -1) ∧
    (a.pid = 0 → b.pid ≠ 0 → compare_applications a b = 1) ∧
    ((a.pid = 0 ↔ b.pid = 0) →
      (compare_applications a b = -1 ↔ a.name < b.name) ∧
      (compare_applications a b = 0 ↔ a.name = b.name) ∧
      (compare_applications a b = 1 ↔ b.name < a.name)) := by
  refine ⟨?_, ?_, ?_⟩
  · intro ha hb
    rw [compare_applications_eq_groupNameCmp, groupNameCmp_eq_neg_one]
    refine Or.inl ⟨?_, ?_⟩
    · simp only [bne_iff_ne, ne_eq]
      exact ha
    · simp only [bne_eq_false_iff_eq]
      exact hb
  · intro ha hb
    rw [compare_applications_eq_groupNameCmp, groupNameCmp_eq_one]
    refine Or.inl ⟨?_, ?_⟩
    · simp only [bne_eq_false_iff_eq]
      exact ha
    · simp only [bne_iff_ne, ne_eq]
      exact hb
  · intro hiff
    have hxy : (a.pid != 0) = (b.pid != 0) := by
      by_cases h : a.pid = 0
      · rw [h, hiff.mp h]
      · have h2 : ¬ b.pid = 0 := fun hb => h (hiff.mpr hb)
        have e1 : (a.pid != 0) = true := by
          simp only [bne_iff_ne, ne_eq]
          exact h
        have e2 : (b.pid != 0) = true := by
          simp only [bne_iff_ne, ne_eq]
          exact h2
        rw [e1, e2]
    refine ⟨?_, ?_, ?_⟩
    · rw [compare_applications_eq_groupNameCmp, groupNameCmp_eq_neg_one]
      constructor
      · rintro (⟨h1, h2⟩ | ⟨_, h2⟩)
        · rw [hxy] at h1
          simp [h1] at h2
        · exact h2
      · intro h
        exact Or.inr ⟨hxy, h⟩
    · rw [compare_applications_eq_groupNameCmp, groupNameCmp_eq_zero]
      constructor
      · rintro ⟨_, h⟩
        exact h
      · intro h
        exact ⟨hxy, h⟩
    · rw [compare_applications_eq_groupNameCmp, groupNameCmp_eq_one]
      constructor
      · rintro (⟨h1, h2⟩ | ⟨_, h2⟩)
        · rw [hxy] at h1
          simp [h1] at h2
        · exact h2
      · intro h
        exact Or.inr ⟨hxy, h⟩

/-- Witness for C4: a running record sorts before a non-running record
even though its name is lexicographically larger. -/
theorem c4_running_first_witness :
    compare_applications ⟨42, "Foo", "com.foo", none⟩ ⟨0, "Bar", "com.bar", none⟩ = -1 :=
  (c4_compare_applications_running_first ⟨42, "Foo", "com.foo", none⟩
    ⟨0, "Bar", "com.bar", none⟩).1 (by decide) rfl

/-- Reading a well-formed terminator-delimited chunk returns the chunk
and leaves the rest of the stream. -/
theorem readRespLoop_append (term : Char) (cs rest : List Char) (h : term ∉ cs) :
    readRespLoop term (cs ++ term :: rest) = .ok (⟨cs⟩, rest) := by
  induction cs with
  | nil => simp [readRespLoop]
  | cons c cs ih =>
    have hc : c ≠ term := fun e => h (e ▸ List.mem_cons_self c cs)
    have h' : term ∉ cs := fun e => h (List.mem_cons_of_mem c e)
    simp [readRespLoop, hc, ih h']

/-- Reading an encoded response consumes exactly it. -/
theorem readResp_enc (term : Char) (r : String) (rest : List Char) (h : term ∉ r.data) :
    readResp term (encResp term r ++ rest) = .ok (r, rest) := by
  show readRespLoop term ((r.data ++ [term]) ++ rest) = .ok (r, rest)
  rw [List.append_assoc]
  exact readRespLoop_append term r.data rest h

/-- Reading an encoded response at the end of the stream. -/
theorem readResp_enc_nil (term : Char) (r : String) (h : term ∉ r.data) :
    readResp term (encResp term r) = .ok (r, []) := by
  have e := readResp_enc term r [] h
  rwa [List.append_nil] at e

/-- When the terminal is interactive, not plain, and the platform is
Darwin, the negotiator runs the probing body under the raw-mode scope. -/
theorem detectTerminal_active (oldA : Nat) (rawOf maskOf : Nat → Nat) (input : List Char) :
    detectTerminal true false true oldA rawOf maskOf input =
      { result := (detectBody input).1
        writes := (detectBody input).2
        setattrs := [rawOf oldA, maskOf (rawOf oldA), oldA]
        finalAttrs := oldA } := rfl

/-- The probing body on two well-formed responses reaches the version
check with the remaining stream intact. -/
theorem detectBody_two_responses (r1 r2 : String) (rest : List Char)
    (h1 : 'n' ∉ r1.data) (h2 : 'n' ∉ r2.data) (h0 : r1 ≠ "0") (h3 : r1 ≠ "3") :
    detectBody (encResp 'n' r1 ++ (encResp 'n' r2 ++ rest)) =
      versionPhase r1 probeWrites rest := by
  unfold detectBody
  simp only [readResp_enc 'n' r1 (encResp 'n' r2 ++ rest) h1,
    readResp_enc 'n' r2 rest h2]
  rw [if_neg (not_or.mpr ⟨h0, h3⟩)]

/-- The geometry phase on two well-formed t-terminated responses
computes the binary64 icon size of the two parsed heights. -/
theorem geometryPhase_eval (w0 : List String) (r3 r4 : String) (hp hc : Int)
    (h3 : 't' ∉ r3.data) (h4 : 't' ∉ r4.data)
    (hg3 : parseSecondField r3 = .ok hp) (hg4 : parseSecondField r4 = .ok hc)
    (hc0 : hc ≠ 0) :
    geometryPhase w0 (encResp 't' r3 ++ encResp 't' r4) =
      (.ok ("iterm2", pyIconSize hp hc),
        (w0 ++ ["\x1b[14t"]) ++ ["\x1b[18t"]) := by
  unfold geometryPhase
  simp only [readResp_enc 't' r3 (encResp 't' r4) h3, readResp_enc_nil 't' r4 h4, hg3, hg4]
  rw [if_neg hc0]

/-- An accepted first response sends the version check into the
geometry phase. -/
theorem versionPhase_of_accepted (response : String) (w0 : List String) (rest : List Char)
    (h : iterm2Accepted response = true) :
    versionPhase response w0 rest = geometryPhase w0 rest := by
  unfold iterm2Accepted at h
  rw [Bool.and_eq_true, Bool.and_eq_true] at h
  obtain ⟨hA, hlen, hM⟩ := h
  have hlen' : 2 ≤ (versionTokens response).length := of_decide_eq_true hlen
  unfold versionPhase
  rw [hA]
  cases hpi : pyInt (majorToken response) with
  | none => rw [hpi] at hM; cases hM
  | some major =>
    rw [hpi] at hM
    have hmaj : 3 ≤ major := of_decide_eq_true hM
    simp [hlen', hpi, hmaj]

/-- A first response that neither satisfies the version check nor makes
the major token unparsable falls through to simple. -/
theorem versionPhase_of_rejected (response : String) (w0 : List String) (rest : List Char)
    (hna : iterm2Accepted response = false) (hne : iterm2ParseError response = false) :
    versionPhase response w0 rest = (.ok ("simple", 0), w0) := by
  unfold iterm2Accepted at hna
  unfold iterm2ParseError at hne
  unfold versionPhase
  cases hA : pyStartsWith response "ITERM2 " with
  | false => simp [hA]
  | true =>
    rw [hA] at hna hne
    rw [Bool.true_and] at hna hne
    by_cases hlen : 2 ≤ (versionTokens response).length
    · rw [decide_eq_true hlen, Bool.true_and] at hna hne
      cases hpi : pyInt (majorToken response) with
      | none =>
        rw [hpi] at hne
        cases hne
      | some major =>
        rw [hpi] at hna
        have hmaj : ¬ 3 ≤ major := of_decide_eq_false hna
        simp [hA, hlen, hpi, hmaj]
    · simp [hA, hlen]

/-- A first response with the prefix and two tokens whose major token
does not parse raises ValueError inside the version check. -/
theorem versionPhase_of_parse_failure (response : String) (w0 : List String) (rest : List Char)
    (h : iterm2ParseError response = true) :
    versionPhase response w0 rest = (.error .valueError, w0) := by
  unfold iterm2ParseError at h
  rw [Bool.and_eq_true, Bool.and_eq_true] at h
  obtain ⟨hA, hlen, hN⟩ := h
  have hlen' : 2 ≤ (versionTokens response).length := of_decide_eq_true hlen
  unfold versionPhase
  rw [hA]
  cases hpi : pyInt (majorToken response) with
  | none => simp [hlen', hpi]
  | some major => rw [hpi] at hN; cases hN

/-- Claim C5 (amended): when the version check succeeds, the
negotiated icon size is math.ceil of the IEEE binary64 evaluation of
(height-in-pixels / height-in-cells) times 1.77, where the two heights
are the second semicolon-delimited fields of the two geometry-probe
responses; this binary64 value can exceed the exact ceiling of the
real-arithmetic formula, though at heights 340 and 20 both give 31. -/
theorem c5_icon_size_formula (r3 r4 : String) (hp hc : Int) (oldA : Nat)
    (rawOf maskOf : Nat → Nat)
    (h3 : 't' ∉ r3.data) (h4 : 't' ∉ r4.data)
    (hg3 : parseSecondField r3 = .ok hp) (hg4 : parseSecondField r4 = .ok hc)
    (hc0 : hc ≠ 0) :
    (detectTerminal true false true oldA rawOf maskOf
        (encResp 'n' "ITERM2 3.0" ++ (encResp 'n' "0" ++
          (encResp 't' r3 ++ encResp 't' r4)))).result =
      .ok ("iterm2", pyIconSize hp hc) := by
  rw [detectTerminal_active]
  show (detectBody _).1 = _
  rw [detectBody_two_responses "ITERM2 3.0" "0" _ (by decide) (by decide) (by decide) (by decide)]
  rw [versionPhase_of_accepted "ITERM2 3.0" probeWrites _ (by decide)]
  rw [geometryPhase_eval probeWrites r3 r4 hp hc h3 h4 hg3 hg4 hc0]

/-- Witness for C5: heights 340 pixels and 20 cells give icon size 31. -/
theorem c5_icon_size_witness :
    (detectTerminal true false true 0 (fun a => a) (fun a => a)
        (encResp 'n' "ITERM2 3.0" ++ (encResp 'n' "0" ++
          (encResp 't' "4;340;520" ++ encResp 't' "4;20;80")))).result =
      .ok ("iterm2", 31) := by
  rw [c5_icon_size_formula "4;340;520" "4;20;80" 340 20 0 (fun a => a) (fun a => a)
    (by decide) (by decide) rfl rfl (by decide)]
  rw [show pyIconSize 340 20 = 31 from by decide]

/-- Counterexample to C5 as stated: with geometry heights 500 pixels
and 59 cells the negotiation returns icon size 16, because the
binary64 product of the correctly rounded quotient with the double
nearest 1.77 lies strictly above 15, while the exact real-arithmetic
formula of the claim gives ceil((500/59) * 1.77) = ceil(15) = 15. -/
theorem c5_exact_formula_counterexample :
    (detectTerminal true false true 0 (fun a => a) (fun a => a)
        (encResp 'n' "ITERM2 3.0" ++ (encResp 'n' "0" ++
          (encResp 't' "4;500;640" ++ encResp 't' "4;59;80")))).result =
      .ok ("iterm2", 16) ∧
    Int.ceil ((500 : ℚ) / (59 : ℚ) * (177 / 100)) = 15 := by
  constructor
  · rw [detectTerminal_active]
    show (detectBody _).1 = _
    rw [detectBody_two_responses "ITERM2 3.0" "0" _ (by decide) (by decide) (by decide)
      (by decide)]
    rw [versionPhase_of_accepted "ITERM2 3.0" probeWrites _ (by decide)]
    rw [geometryPhase_eval probeWrites "4;500;640" "4;59;80" 500 59
      (by decide) (by decide) rfl rfl (by decide)]
    rw [show pyIconSize 500 59 = 16 from by decide]
  · norm_num [Int.ceil_eq_iff]

/-- Claim C2 (amended): with a first capability response that is
neither 0 nor 3, negotiation returns iterm2 (after the geometry
probes) exactly when the response starts with the literal prefix
ITERM2 followed by a space, the version text after the prefix splits
into at least two dot-separated tokens, and the first token parses as
an integer of at least 3; any other such first response yields simple,
except that a prefixed response with two tokens whose first token is
not a valid integer raises ValueError instead. -/
theorem c2_version_check (r1 : String) (oldA : Nat) (rawOf maskOf : Nat → Nat)
    (h1 : 'n' ∉ r1.data) (h0 : r1 ≠ "0") (h3 : r1 ≠ "3") :
    ((detectTerminal true false true oldA rawOf maskOf (c2Stream r1)).result =
        .ok ("iterm2", 31) ↔ iterm2Accepted r1 = true) ∧
    (iterm2Accepted r1 = false → iterm2ParseError r1 = false →
      (detectTerminal true false true oldA rawOf maskOf (c2Stream r1)).result =
        .ok ("simple", 0)) ∧
    (iterm2ParseError r1 = true →
      (detectTerminal true false true oldA rawOf maskOf (c2Stream r1)).result =
        .error .valueError) := by
  have hbase : (detectTerminal true false true oldA rawOf maskOf (c2Stream r1)).result =
      (versionPhase r1 probeWrites (encResp 't' "4;340;520" ++ encResp 't' "4;20;80")).1 := by
    rw [detectTerminal_active]
    show (detectBody _).1 = _
    rw [show c2Stream r1 = encResp 'n' r1 ++ (encResp 'n' "0" ++
      (encResp 't' "4;340;520" ++ encResp 't' "4;20;80")) from rfl]
    rw [detectBody_two_responses r1 "0" _ h1 (by decide) h0 h3]
  have hgeom : geometryPhase probeWrites (encResp 't' "4;340;520" ++ encResp 't' "4;20;80") =
      (.ok ("iterm2", (31 : Int)), (probeWrites ++ ["\x1b[14t"]) ++ ["\x1b[18t"]) := by
    rw [geometryPhase_eval probeWrites "4;340;520" "4;20;80" 340 20
      (by decide) (by decide) rfl rfl (by decide)]
    rw [show pyIconSize 340 20 = 31 from by decide]
  refine ⟨⟨?_, ?_⟩, ?_, ?_⟩
  · intro hres
    by_contra hacc
    rw [Bool.not_eq_true] at hacc
    by_cases herr : iterm2ParseError r1 = true
    · rw [hbase, versionPhase_of_parse_failure r1 probeWrites _ herr] at hres
      exact absurd hres (by simp)
    · rw [Bool.not_eq_true] at herr
      rw [hbase, versionPhase_of_rejected r1 probeWrites _ hacc herr] at hres
      exact absurd hres (by simp)
  · intro hacc
    rw [hbase, versionPhase_of_accepted r1 probeWrites _ hacc, hgeom]
  · intro hacc herr
    rw [hbase, versionPhase_of_rejected r1 probeWrites _ hacc herr]
  · intro herr
    rw [hbase, versionPhase_of_parse_failure r1 probeWrites _ herr]

/-- Witness for C2: the response ITERM2 3.1 passes the amended check
and the negotiation returns iterm2 with the icon size computed from
the geometry responses of the probe stream. -/
theorem c2_version_check_witness :
    (detectTerminal true false true 0 (fun a => a) (fun a => a)
        (c2Stream "ITERM2 3.1")).result = .ok ("iterm2", 31) :=
  ((c2_version_check "ITERM2 3.1" 0 (fun a => a) (fun a => a)
      (by decide) (by decide) (by decide)).1).mpr (by decide)

/-- Counterexample to C2 as stated: the first response ITERM2 3 starts
with the ITERM2 prefix and its major version parses as 3, which is at
least 3, yet negotiation returns simple because the source also
requires a second dot-separated version token. -/
theorem c2_no_dot_counterexample :
    pyStartsWith "ITERM2 3" "ITERM2 " = true ∧
    pyInt (majorToken "ITERM2 3") = some 3 ∧
    (detectTerminal true false true 0 (fun a => a) (fun a => a)
        (c2Stream "ITERM2 3")).result = .ok ("simple", 0) := by
  refine ⟨rfl, rfl, ?_⟩
  rw [detectTerminal_active]
  show (detectBody _).1 = _
  rw [show c2Stream "ITERM2 3" = encResp 'n' "ITERM2 3" ++ (encResp 'n' "0" ++
    (encResp 't' "4;340;520" ++ encResp 't' "4;20;80")) from rfl]
  rw [detectBody_two_responses "ITERM2 3" "0" _ (by decide) (by decide) (by decide) (by decide)]
  rw [versionPhase_of_rejected "ITERM2 3" probeWrites _ rfl rfl]

/-- Claim C6: whenever negotiation switches the terminal into raw
mode, the saved attributes are the final tcsetattr on every exit path,
normal return or escaping exception, and the terminal always ends in
its original mode. -/
theorem c6_raw_mode_restored (haveT plainT darwin : Bool) (oldA : Nat)
    (rawOf maskOf : Nat → Nat) (input : List Char) :
    (detectTerminal haveT plainT darwin oldA rawOf maskOf input).finalAttrs = oldA ∧
    ((detectTerminal haveT plainT darwin oldA rawOf maskOf input).setattrs ≠ [] →
      (detectTerminal haveT plainT darwin oldA rawOf maskOf input).setattrs.getLast? =
        some oldA) := by
  unfold detectTerminal
  split
  · exact ⟨rfl, fun h => absurd rfl h⟩
  · exact ⟨rfl, fun _ => rfl⟩

/-- Witness for C6: with raw mode entered and an empty input stream
(the body fails with a read error), the final tcsetattr still restores
the saved attributes. -/
theorem c6_restore_witness :
    (detectTerminal true false true 5 (fun a => a + 1) (fun a => a + 2) []).finalAttrs = 5 ∧
    (detectTerminal true false true 5 (fun a => a + 1) (fun a => a + 2) []).setattrs.getLast? =
      some 5 :=
  ⟨(c6_raw_mode_restored true false true 5 (fun a => a + 1) (fun a => a + 2) []).1,
   (c6_raw_mode_restored true false true 5 (fun a => a + 1) (fun a => a + 2) []).2 (by decide)⟩

/-- Claim C7: without an interactive terminal, or with image output
suppressed, or off the supported platform, detection returns simple
with icon size 0 immediately: no writes, no tcsetattr calls, terminal
attributes untouched. -/
theorem c7_short_circuit (haveT plainT darwin : Bool) (oldA : Nat)
    (rawOf maskOf : Nat → Nat) (input : List Char)
    (h : haveT = false ∨ plainT = true ∨ darwin = false) :
    detectTerminal haveT plainT darwin oldA rawOf maskOf input =
      { result := .ok ("simple", 0), writes := [], setattrs := [], finalAttrs := oldA } := by
  unfold detectTerminal
  rw [if_pos]
  rcases h with h | h | h <;> simp [h]

/-- Witness for C7: a non-interactive terminal short-circuits. -/
theorem c7_short_circuit_witness :
    detectTerminal false false true 7 (fun a => a + 1) (fun a => a + 2) [] =
      { result := .ok ("simple", 0), writes := [], setattrs := [], finalAttrs := 7 } :=
  c7_short_circuit false false true 7 (fun a => a + 1) (fun a => a + 2) [] (Or.inl rfl)

/-- Claim C10: in text mode with a non-zero icon width, a present
icons entry has its first descriptor rendered whatever its format, an
absent entry gets the blank placeholder, and a present-but-empty entry
makes the row fail with IndexError instead of falling back to the
placeholder. -/
theorem c10_first_icon_rendered (iconSize : Int) (iconWidth nameWidth : Nat)
    (icons : Option (List IconDescriptor)) (name : String) (hw : iconWidth ≠ 0) :
    (∀ d ds, icons = some (d :: ds) →
      rowNameCell iconSize iconWidth nameWidth icons name =
        .ok (render_icon iconSize d ++ " " ++ pyLJust (nameWidth - iconWidth) name)) ∧
    (icons = none →
      rowNameCell iconSize iconWidth nameWidth icons name =
        .ok ("   " ++ " " ++ pyLJust (nameWidth - iconWidth) name)) ∧
    (icons = some [] →
      rowNameCell iconSize iconWidth nameWidth icons name = .error PyErr.indexError) := by
  refine ⟨?_, ?_, ?_⟩
  · intro d ds hi
    subst hi
    unfold rowNameCell
    rw [if_pos hw]
  · intro hi
    subst hi
    unfold rowNameCell
    rw [if_pos hw]
  · intro hi
    subst hi
    unfold rowNameCell
    rw [if_pos hw]

/-- Witness for C10: a single non-png descriptor is rendered as the
row icon. -/
theorem c10_first_icon_witness :
    rowNameCell 31 4 7 (some [⟨"jpeg", [7]⟩]) "X" =
      .ok (render_icon 31 ⟨"jpeg", [7]⟩ ++ " " ++ pyLJust 3 "X") :=
  (c10_first_icon_rendered 31 4 7 (some [⟨"jpeg", [7]⟩]) "X" (by decide)).1 ⟨"jpeg", [7]⟩ [] rfl

/-- Claim C1 (code bug in the source): the applications listing never
consults the exclude-icons flag, so with the flag set, text output on
an iterm2 terminal, and one application whose icons hold a png
descriptor, the listing still uses icon width 4 and renders the icon,
where the claim requires icon width 0 whenever icons are disabled.
The process-side scope choice honours the flag; the application-side
one does not. -/
theorem c1_applications_ignore_exclude_icons :
    processesScope true "text" "iterm2" = "minimal" ∧
    applicationsScope "text" "iterm2" = "full" ∧
    compute_icon_width (some [⟨"png", [1, 2, 3]⟩]) = 4 ∧
    listApplications true true "text" "iterm2" 31
        (fun _ => .ok [⟨123, "App", "com.app", some [⟨"png", [1, 2, 3]⟩]⟩]) =
      ([.line "PID  Name     Identifier",
        .line "---  -------  -------",
        .line ("123  " ++ render_icon 31 ⟨"png", [1, 2, 3]⟩ ++ " App  com.app")], some 0) := by
  exact ⟨rfl, rfl, rfl, rfl⟩

/-- Membership is preserved by the stable insertion. -/
theorem mem_pySortedInsert (cmp : α → α → Int) (x y : α) (l : List α) :
    y ∈ pySortedInsert cmp x l ↔ y = x ∨ y ∈ l := by
  induction l with
  | nil => simp [pySortedInsert]
  | cons z zs ih =>
    unfold pySortedInsert
    split
    · simp
    · rw [List.mem_cons, ih, List.mem_cons]
      tauto

/-- Sorting does not change the members of the list. -/
theorem mem_pySorted (cmp : α → α → Int) (x : α) (l : List α) :
    x ∈ pySorted cmp l ↔ x ∈ l := by
  induction l with
  | nil => simp [pySorted]
  | cons y ys ih =>
    show x ∈ pySortedInsert cmp y (pySorted cmp ys) ↔ _
    rw [mem_pySortedInsert, ih]
    exact (List.mem_cons).symm

/-- A record whose icons entry is not present-and-empty always has a
well-defined name cell. -/
theorem rowNameCell_ok (iconSize : Int) (iw nw : Nat) (icons : Option (List IconDescriptor))
    (name : String) (h : icons ≠ some []) :
    ∃ s, rowNameCell iconSize iw nw icons name = .ok s := by
  rcases icons with _ | l
  · unfold rowNameCell
    split
    · exact ⟨_, rfl⟩
    · exact ⟨_, rfl⟩
  · cases l with
    | nil => exact absurd rfl h
    | cons d ds =>
      unfold rowNameCell
      split
      · exact ⟨_, rfl⟩
      · exact ⟨_, rfl⟩

/-- The process row loop raises nothing when no record has a
present-and-empty icons entry. -/
theorem emitProcessRows_ok (iconSize : Int) (l : List Process)
    (h : ∀ p ∈ l, p.icons ≠ some []) (pw iw nw : Nat) :
    (emitProcessRows iconSize pw iw nw l).2 = none := by
  induction l with
  | nil => rfl
  | cons p ps ih =>
    obtain ⟨s, hs⟩ := rowNameCell_ok iconSize iw nw p.icons p.name (h p (List.mem_cons_self p ps))
    unfold emitProcessRows
    rw [hs]
    exact ih (fun q hq => h q (List.mem_cons_of_mem p hq))

/-- The application row loop raises nothing when no record has a
present-and-empty icons entry. -/
theorem emitApplicationRows_ok (iconSize : Int) (l : List Application)
    (h : ∀ a ∈ l, a.icons ≠ some []) (pw iw nw idW : Nat) :
    (emitApplicationRows iconSize pw iw nw idW l).2 = none := by
  induction l with
  | nil => rfl
  | cons a rest ih =>
    obtain ⟨s, hs⟩ := rowNameCell_ok iconSize iw nw a.icons a.name
      (h a (List.mem_cons_self a rest))
    unfold emitApplicationRows
    rw [hs]
    exact ih (fun q hq => h q (List.mem_cons_of_mem a hq))

/-- Claim C8: structured application output is one object per listed
record in comparator order, with keys in declaration order pid, name,
identifier and a null pid exactly for pid 0; on the two records Foo
(pid 0) and Bar (pid 42) it emits Bar first with pid 42 and Foo second
with pid null. -/
theorem c8_structured_applications :
    (∀ (includeAll excludeIcons : Bool) (terminalType : String) (iconSize : Int)
        (apps : List Application),
      listApplications includeAll excludeIcons "json" terminalType iconSize
          (fun _ => .ok apps) =
        ([.jsonOut (Json.arr ((pySorted compare_applications
            (if includeAll then apps else apps.filter (fun app => app.pid != 0))).map
              (fun app => Json.obj
                [("pid", if app.pid = 0 then Json.null else Json.num app.pid),
                 ("name", Json.str app.name),
                 ("identifier", Json.str app.identifier)])))], some 0)) ∧
    listApplications true false "json" "simple" 0
        (fun _ => .ok [⟨0, "Foo", "com.foo", none⟩, ⟨42, "Bar", "com.bar", none⟩]) =
      ([.jsonOut (Json.arr
          [Json.obj [("pid", Json.num 42), ("name", Json.str "Bar"),
            ("identifier", Json.str "com.bar")],
           Json.obj [("pid", Json.null), ("name", Json.str "Foo"),
            ("identifier", Json.str "com.foo")]])], some 0) := by
  constructor
  · intro includeAll excludeIcons terminalType iconSize apps
    unfold listApplications
    cases hA : (if includeAll then apps else apps.filter (fun app => app.pid != 0)) with
    | nil => simp [hA, pySorted]
    | cons a rest => simp [hA]
  · rfl

/-- Claim C9: a failing enumeration backend produces exactly one
status message and exit code 1 with no listing output, for both
listings and any output format; a successful enumeration (of records
whose icons entries are never present-and-empty, so that no row
raises) always exits 0. -/
theorem c9_exit_codes (excludeIcons includeAll : Bool) (outputFormat terminalType : String)
    (iconSize : Int) (err : String) (procs : List Process) (apps : List Application)
    (hp : ∀ p ∈ procs, p.icons ≠ some [])
    (ha : ∀ a ∈ apps, a.icons ≠ some []) :
    listProcesses excludeIcons outputFormat terminalType iconSize (fun _ => .error err) =
      ([.status ("Failed to enumerate processes: " ++ err)], some 1) ∧
    listApplications includeAll excludeIcons outputFormat terminalType iconSize
        (fun _ => .error err) =
      ([.status ("Failed to enumerate applications: " ++ err)], some 1) ∧
    (listProcesses excludeIcons outputFormat terminalType iconSize (fun _ => .ok procs)).2 =
      some 0 ∧
    (listApplications includeAll excludeIcons outputFormat terminalType iconSize
        (fun _ => .ok apps)).2 = some 0 := by
  refine ⟨rfl, rfl, ?_, ?_⟩
  · have hp' : ∀ p ∈ pySorted compare_processes procs, p.icons ≠ some [] :=
      fun p hmem => hp p ((mem_pySorted compare_processes p procs).mp hmem)
    by_cases hf : outputFormat = "text"
    · subst hf
      by_cases hl : 0 < procs.length
      · simp [listProcesses, hl, emitProcessRows_ok iconSize (pySorted compare_processes procs) hp']
      · simp [listProcesses, hl]
    · by_cases hj : outputFormat = "json" <;> simp [listProcesses, hf, hj]
  · have haS : ∀ (l : List Application), (∀ a ∈ l, a.icons ≠ some []) →
        ∀ a ∈ pySorted compare_applications l, a.icons ≠ some [] :=
      fun l hl' a hmem => hl' a ((mem_pySorted compare_applications a l).mp hmem)
    have haF : ∀ a ∈ apps.filter (fun app => app.pid != 0), a.icons ≠ some [] :=
      fun a hmem => ha a (List.mem_filter.mp hmem).1
    by_cases hf : outputFormat = "text"
    · subst hf
      cases includeAll with
      | true =>
        by_cases hl : 0 < apps.length
        · simp [listApplications, hl,
            emitApplicationRows_ok iconSize (pySorted compare_applications apps) (haS apps ha)]
        · simp [listApplications, hl]
      | false =>
        by_cases hl : 0 < (apps.filter (fun app => app.pid != 0)).length
        · simp [listApplications, hl,
            emitApplicationRows_ok iconSize
              (pySorted compare_applications (apps.filter (fun app => app.pid != 0)))
              (haS (apps.filter (fun app => app.pid != 0)) haF)]
        · simp [listApplications, hl]
    · by_cases hj : outputFormat = "json" <;> simp [listApplications, hf, hj]

/-- Witness for C9: a backend error exits 1 with only the status
message; a successful one-record listing exits 0. -/
theorem c9_exit_codes_witness :
    listProcesses false "text" "simple" 0 (fun _ => .error "boom") =
      ([.status "Failed to enumerate processes: boom"], some 1) ∧
    (listProcesses false "text" "simple" 0 (fun _ => .ok [⟨1, "a", none⟩])).2 = some 0 := by
  have h := c9_exit_codes false false "text" "simple" 0 "boom" [⟨1, "a", none⟩] []
    (by decide) (by decide)
  exact ⟨h.1, h.2.2.1⟩
